import Mathlib

/-!
Shallow embedding of the research-to-report pipeline of the
AI-Multi-Agent-System repository (src/ai_usecase_system.py, the full
variant, and src/app.py, the fast Streamlit variant).

A provider response is modelled as `Option (List String)`:
`none` stands for any transport error or non-success HTTP status, and
`some results` stands for a success whose items are the content strings
of the ranked results (`r.get "content" ""` in the source; a missing
content key becomes the empty string).  A provider behaviour is a
function from the query string to such a response.  The inference
engine is modelled as `Option (String → Option String)`: `none` when
model initialization failed (`self.llm is None`), otherwise a function
from the prompt to `none` (the invocation raised) or `some completion`.
Timestamps are passed as opaque strings.

The Python string primitives used by the pipeline — `str.strip()`,
slicing `s[:n]`, and `str.split(sep)` for a non-empty separator — are
modelled by structurally recursive functions on the character data of a
`String` (`py_strip`, `py_slice`, `py_split`), so that every definition
evaluates by kernel reduction.
-/

/-- Model of Python `str.strip()`: drop leading and trailing whitespace
characters. -/
def py_strip (s : String) : String :=
  ⟨(((s.data.dropWhile Char.isWhitespace).reverse.dropWhile Char.isWhitespace).reverse)⟩

/-- Model of Python slicing `s[:n]`: the first `n` characters. -/
def py_slice (s : String) (n : Nat) : String :=
  ⟨s.data.take n⟩

/-- Does the character list start with the given pattern? -/
def starts_with_chars : List Char → List Char → Bool
  | _, [] => true
  | [], _ :: _ => false
  | c :: s, d :: p => c == d && starts_with_chars s p

/-- Fuelled worker for `py_split`: scan left to right, cutting at each
leftmost non-overlapping occurrence of the (non-empty) separator.
`acc` holds the reversed characters of the current segment.  The fuel
starts at the length of the scanned text and decreases by one per
consumed character, so it never runs out. -/
def py_split_fuel (sep : List Char) : Nat → List Char → List Char → List (List Char)
  | 0, acc, s => [acc.reverse ++ s]
  | fuel + 1, acc, s =>
    match s with
    | [] => [acc.reverse]
    | c :: rest =>
      if starts_with_chars s sep then
        acc.reverse :: py_split_fuel sep fuel [] (s.drop sep.length)
      else
        py_split_fuel sep fuel (c :: acc) rest

/-- Model of Python `str.split(sep)` for a non-empty separator `sep`:
split on the leftmost non-overlapping occurrences of `sep`; `n`
occurrences yield `n + 1` parts, separators are not included. -/
def py_split (s : String) (sep : String) : List String :=
  (py_split_fuel sep.data s.data.length [] s.data).map fun l => ⟨l⟩

/-- The three fixed research categories used by both
`AIResearchSystem.research_company` and `cached_research`. -/
inductive Category where
  | company_info
  | market_info
  | ai_info
  deriving DecidableEq, Repr

/-- The fixed iteration order of the three-category query dict in both
variants (Python dicts iterate in insertion order). -/
def categories : List Category :=
  [Category.company_info, Category.market_info, Category.ai_info]

/-- One category entry of the research record:
`{summary: str, details: list[str]}`. -/
structure CategoryRecord where
  summary : String
  details : List String
  deriving DecidableEq, Repr

/-- One parsed use case:
`{id: int, description: str, generated_at: str}`. -/
structure UseCase where
  id : Nat
  description : String
  generated_at : String
  deriving DecidableEq, Repr

/-- Comparison of two use-case records by id, used to state that parsed
ids are strictly increasing. -/
def id_lt (a b : UseCase) : Prop := a.id < b.id

instance : DecidableRel id_lt := fun a b => inferInstanceAs (Decidable (a.id < b.id))

/-- The shared parsing loop of `AIResearchSystem._parse_use_cases` and
`cached_use_cases`: `for i, case in enumerate(cases, 1): if case.strip():
append {id: i, description: case.strip(), generated_at: ts}`.
`segs` is the list of split segments still to visit and `i` the 1-based
index of the head segment. -/
def parse_aux (ts : String) : List String → Nat → List UseCase
  | [], _ => []
  | case :: rest, i =>
    if py_strip case ≠ "" then
      ⟨i, py_strip case, ts⟩ :: parse_aux ts rest (i + 1)
    else
      parse_aux ts rest (i + 1)

namespace AIResearchSystem

/-- `_extract_summary` (src/ai_usecase_system.py lines 102-109): strip
each content, keep the non-empty ones, space-join, truncate to 500. -/
def extract_summary (results : List String) : String :=
  py_slice (String.intercalate " " ((results.map py_strip).filter (fun c => c ≠ ""))) 500

/-- `_extract_details` (lines 111-113): keep non-empty contents, first 3. -/
def extract_details (results : List String) : List String :=
  (results.filter (fun r => r ≠ "")).take 3

/-- `_make_search_request` (lines 81-100): on a 200 response build the
summary/details record, on any failure or non-success status return
`{summary: "", details: []}`. -/
def make_search_request (provider : String → Option (List String)) (query : String) :
    CategoryRecord :=
  match provider query with
  | some results => ⟨extract_summary results, extract_details results⟩
  | none => ⟨"", []⟩

/-- The query text of each category in `research_company` (lines 69-73). -/
def query_text (company : String) : Category → String
  | Category.company_info => company ++ " company overview business model products"
  | Category.market_info => company ++ " market position industry trends competitors"
  | Category.ai_info => company ++ " artificial intelligence machine learning initiatives"

/-- `research_company` (lines 67-79): one search request per fixed
category, assembled into a category-keyed record. -/
def research_company (provider : String → Option (List String)) (company : String) :
    List (Category × CategoryRecord) :=
  categories.map (fun c => (c, make_search_request provider (query_text company c)))

/-- `_parse_use_cases` (lines 144-159): split the completion on the
literal marker, drop the preamble before the first marker (`[1:]`), then
run the enumerate-and-filter loop starting at index 1. -/
def parse_use_cases (response : String) (ts : String) : List UseCase :=
  parse_aux ts ((py_split response "Use Case #").tail) 1

/-- The generation prompt of `generate_use_cases` (lines 120-135),
embedding the first 200 characters of the company_info summary. -/
def build_prompt (research_data : List (Category × CategoryRecord)) : String :=
  "Based on this research, generate 5 practical AI/GenAI use cases for " ++
    py_slice (((research_data.lookup Category.company_info).getD ⟨"", []⟩).summary) 200 ++
    "\n\nFocus areas:\n- Operational Efficiency\n- Customer Experience\n- Product Innovation\n- Process Automation\n- Data Analytics\n\nFormat each as:\nUse Case #[number]:\n1. Problem: [challenge]\n2. Solution: [AI/ML approach]\n3. Complexity: [Low/Medium/High]\n4. Impact: [benefits]\n5. Resources: [requirements]"

/-- `generate_use_cases` (lines 115-142): empty list when the model is
unavailable (`if not self.llm`), empty list when the invocation raises,
otherwise the parsed completion. -/
def generate_use_cases (llm : Option (String → Option String))
    (research_data : List (Category × CategoryRecord)) (ts : String) : List UseCase :=
  match llm with
  | none => []
  | some invoke =>
    match invoke (build_prompt research_data) with
    | none => []
    | some response => parse_use_cases response ts

/-- The report document of `save_report` (lines 161-169). -/
structure Report where
  company_name : String
  analysis_date : String
  research_data : List (Category × CategoryRecord)
  ai_use_cases : List UseCase
  deriving DecidableEq, Repr

/-- Assembly of the report written by `save_report` (lines 163-169). -/
def save_report (company_name analysis_date : String)
    (research_data : List (Category × CategoryRecord)) (use_cases : List UseCase) : Report :=
  ⟨company_name, analysis_date, research_data, use_cases⟩

end AIResearchSystem

namespace FastAIGenerator

/-- `FastAIGenerator._extract_summary` (src/app.py lines 101-107): first
2 results, keep those with non-empty content, strip and truncate each to
200 characters, space-join. -/
def extract_summary (results : List String) : String :=
  String.intercalate " "
    (((results.take 2).filter (fun r => r ≠ "")).map (fun r => py_slice (py_strip r) 200))

/-- `FastAIGenerator._extract_details` (lines 109-111): first result,
kept only when its content is non-empty. -/
def extract_details (results : List String) : List String :=
  (results.take 1).filter (fun r => r ≠ "")

/-- `FastAIGenerator._make_search_request` (lines 76-99). -/
def make_search_request (provider : String → Option (List String)) (query : String) :
    CategoryRecord :=
  match provider query with
  | some results => ⟨extract_summary results, extract_details results⟩
  | none => ⟨"", []⟩

end FastAIGenerator

/-- The query text of each category in `cached_research` (src/app.py
lines 116-120). -/
def fast_query_text (company : String) : Category → String
  | Category.company_info => company ++ " company overview"
  | Category.market_info => company ++ " market position"
  | Category.ai_info => company ++ " AI initiatives"

/-- The per-category record built inline by `cached_research`
(src/app.py lines 131-149): on success the summary is the space-join of
the first 2 contents, each stripped and truncated to 200 characters (no
emptiness filter), and details is the first content; on a non-success
status or an exception the record degrades to `{summary: "", details: []}`. -/
def cached_research_record (resp : Option (List String)) : CategoryRecord :=
  match resp with
  | some results =>
    ⟨String.intercalate " " ((results.take 2).map (fun r => py_slice (py_strip r) 200)),
     results.take 1⟩
  | none => ⟨"", []⟩

/-- The body of `cached_research` (src/app.py lines 113-151): one
request per fixed category assembled into a category-keyed record. -/
def cached_research (provider : String → Option (List String)) (company : String) :
    List (Category × CategoryRecord) :=
  categories.map (fun c => (c, cached_research_record (provider (fast_query_text company c))))

/-- The body of `cached_use_cases` (src/app.py lines 153-169): the same
split-enumerate-filter parse as `_parse_use_cases`. -/
def cached_use_cases (model_output : String) (ts : String) : List UseCase :=
  parse_aux ts ((py_split model_output "Use Case #").tail) 1

/-- Modelled from the spec: the TTL memoization of `st.cache_data` is
Streamlit library code and is not part of the repository sources; per
spec section 4.2 a cache entry is `{key, value, created_at, ttl}`, a hit
within the TTL returns the stored value unchanged, and an entry is
treated as absent once `now - created_at > ttl`. -/
structure CacheEntry (α : Type) where
  value : α
  created_at : Nat
  deriving DecidableEq, Repr

/-- Modelled from the spec: association-list lookup of a cache key. -/
def cache_find {K : Type} [DecidableEq K] {α : Type}
    (cache : List (K × CacheEntry α)) (k : K) : Option (CacheEntry α) :=
  match cache with
  | [] => none
  | (k₁, e) :: rest => if k = k₁ then some e else cache_find rest k

/-- Modelled from the spec: `get_or_compute(key, compute_fn, ttl)` at
time `now`.  Returns the value, the updated cache, and a flag recording
whether `compute_fn` was invoked: a fresh hit (`now - created_at ≤ ttl`)
returns the stored value without computing; a miss or a stale entry
invokes `compute_fn` and stores the result with `created_at = now`. -/
def get_or_compute {K : Type} [DecidableEq K] {α : Type}
    (cache : List (K × CacheEntry α)) (k : K) (f : Unit → α) (ttl now : Nat) :
    α × List (K × CacheEntry α) × Bool :=
  match cache_find cache k with
  | some e =>
    if now - e.created_at ≤ ttl then (e.value, cache, false)
    else (f (), (k, ⟨f (), now⟩) :: cache, true)
  | none => (f (), (k, ⟨f (), now⟩) :: cache, true)

/-- The cache key of `cached_research` as the code fixes it: the
signature at src/app.py lines 113-114 underscore-prefixes both
parameters (`_company_name`, `_api_key`), and by its documented
semantics `st.cache_data` excludes underscore-prefixed parameters from
the cache key, so neither the company nor the api key enters the key —
every call shares the one key.  (Spec section 2 instead describes the
intended key, the (company, query-set) pair.) -/
def cached_research_cache_key (_company_name _api_key : String) : Unit := ()

/-- A provider that answers only the Tesla company-overview query, used
to exhibit that two companies with different research records still
share the single cache key of `cached_research`. -/
def tesla_only_provider : String → Option (List String) :=
  fun q => if q = fast_query_text "Tesla" Category.company_info
    then some ["Tesla overview"] else none

/-! ### Helper lemmas -/

/-- Sanity check of the Python split model: leftmost, non-overlapping
occurrences are cut, matching the documented behaviour of `str.split`. -/
theorem py_split_overlap_check : py_split "ababacabac" "aba" = ["", "bac", "c"] := by decide

/-- Sanity check of the parser model: an empty segment between two
markers is dropped and its id is skipped. -/
theorem parse_skips_empty_segment_check :
    AIResearchSystem.parse_use_cases "preUse Case #aUse Case # Use Case #b" "t" =
      [⟨1, "a", "t"⟩, ⟨3, "b", "t"⟩] := by decide

theorem py_slice_length_le (s : String) (n : Nat) : (py_slice s n).length ≤ n := by
  simp [py_slice, List.length_take]

theorem intercalate_two_length_le (l : List String) (n : Nat) (hlen : l.length ≤ 2)
    (hx : ∀ x ∈ l, x.length ≤ n) : (String.intercalate " " l).length ≤ 2 * n + 1 := by
  match l with
  | [] =>
    show (String.intercalate " " []).length ≤ 2 * n + 1
    simp [String.intercalate]
  | [a] =>
    have h1 : String.intercalate " " [a] = a := rfl
    have h2 : a.length ≤ n := hx a (by simp)
    rw [h1]; omega
  | [a, b] =>
    have h1 : String.intercalate " " [a, b] = a ++ " " ++ b := rfl
    have h2 : a.length ≤ n := hx a (by simp)
    have h3 : b.length ≤ n := hx b (by simp)
    rw [h1]
    simp only [String.length_append]
    have h4 : (" " : String).length = 1 := rfl
    omega
  | a :: b :: c :: rest =>
    simp at hlen

theorem parse_aux_mem {ts : String} : ∀ (segs : List String) (i : Nat) (r : UseCase),
    r ∈ parse_aux ts segs i →
    i ≤ r.id ∧ r.id < i + segs.length ∧
    r.description = py_strip (segs.getD (r.id - i) "") ∧
    r.description ≠ "" ∧ r.generated_at = ts := by
  intro segs
  induction segs with
  | nil => intro i r hr; simp [parse_aux] at hr
  | cons c rest ih =>
    intro i r hr
    simp only [parse_aux] at hr
    by_cases h : py_strip c ≠ ""
    · rw [if_pos h] at hr
      rcases List.mem_cons.mp hr with h1 | h2
      · subst h1
        refine ⟨le_refl _, by simp, ?_, h, rfl⟩
        simp
      · obtain ⟨ha, hb, hc, hd, he⟩ := ih (i + 1) r h2
        refine ⟨by omega, by simp only [List.length_cons]; omega, ?_, hd, he⟩
        have hsub : r.id - i = (r.id - (i + 1)) + 1 := by omega
        rw [hsub, List.getD_cons_succ]
        exact hc
    · rw [if_neg h] at hr
      obtain ⟨ha, hb, hc, hd, he⟩ := ih (i + 1) r hr
      refine ⟨by omega, by simp only [List.length_cons]; omega, ?_, hd, he⟩
      have hsub : r.id - i = (r.id - (i + 1)) + 1 := by omega
      rw [hsub, List.getD_cons_succ]
      exact hc

theorem parse_aux_pairwise {ts : String} : ∀ (segs : List String) (i : Nat),
    (parse_aux ts segs i).Pairwise id_lt := by
  intro segs
  induction segs with
  | nil => intro i; simp [parse_aux]
  | cons c rest ih =>
    intro i
    simp only [parse_aux]
    by_cases h : py_strip c ≠ ""
    · rw [if_pos h]
      refine List.Pairwise.cons ?_ (ih (i + 1))
      intro b hb
      have hmem := (parse_aux_mem rest (i + 1) b hb).1
      simp only [id_lt]
      omega
    · rw [if_neg h]
      exact ih (i + 1)

/-! ### Claim theorems -/

/-- C1: for every company name and provider behaviour, `research_company`
returns a record whose keys are exactly the three fixed categories in
order, and a category whose provider call failed (modelled by the
provider returning `none` for that category query) maps to
`{summary: "", details: []}`.  The aggregation is a total function, so a
single category failure never aborts it. -/
theorem research_always_three_categories
    (company : String) (provider : String → Option (List String)) (c : Category)
    (hfail : provider (AIResearchSystem.query_text company c) = none) :
    (AIResearchSystem.research_company provider company).map Prod.fst = categories ∧
    (AIResearchSystem.research_company provider company).lookup c =
      some ⟨"", []⟩ := by
  refine ⟨rfl, ?_⟩
  cases c <;>
    simp only [AIResearchSystem.research_company, categories,
      AIResearchSystem.make_search_request, List.map, List.lookup, hfail] <;>
    rfl

theorem research_always_three_categories_witness :
    (AIResearchSystem.research_company (fun _ => none) "Acme").map Prod.fst = categories ∧
    (AIResearchSystem.research_company (fun _ => none) "Acme").lookup Category.company_info =
      some ⟨"", []⟩ :=
  research_always_three_categories "Acme" (fun _ => none) Category.company_info rfl

/-- C5: varying the provider behaviour for one category changes at most
that category entry of the research record: if two provider behaviours
agree on the query of a category `c'` other than `c`, then the `c'`
entries of the research records (full variant and fast variant) agree. -/
theorem research_category_independence
    (company : String) (p1 p2 : String → Option (List String)) (c c' : Category)
    (hne : c' ≠ c)
    (hagree : p1 (AIResearchSystem.query_text company c') =
      p2 (AIResearchSystem.query_text company c'))
    (hfast : p1 (fast_query_text company c') = p2 (fast_query_text company c')) :
    (AIResearchSystem.research_company p1 company).lookup c' =
      (AIResearchSystem.research_company p2 company).lookup c' ∧
    (cached_research p1 company).lookup c' = (cached_research p2 company).lookup c' := by
  constructor <;> cases c' <;>
    simp only [AIResearchSystem.research_company, cached_research, categories,
      AIResearchSystem.make_search_request, cached_research_record, List.map,
      List.lookup, hagree, hfast] <;>
    rfl

theorem research_category_independence_witness :
    (AIResearchSystem.research_company (fun _ => none) "Acme").lookup Category.market_info =
      (AIResearchSystem.research_company
        (fun q => if q = AIResearchSystem.query_text "Acme" Category.company_info
          then some ["x"] else none) "Acme").lookup Category.market_info ∧
    (cached_research (fun _ => none) "Acme").lookup Category.market_info =
      (cached_research
        (fun q => if q = AIResearchSystem.query_text "Acme" Category.company_info
          then some ["x"] else none) "Acme").lookup Category.market_info :=
  research_category_independence "Acme" (fun _ => none)
    (fun q => if q = AIResearchSystem.query_text "Acme" Category.company_info
      then some ["x"] else none)
    Category.company_info Category.market_info (by decide) (by decide) (by decide)

/-- Every element produced by the fast per-item truncation has length at
most 200. -/
theorem mem_map_slice_le {l : List String} {x : String}
    (hx : x ∈ l.map (fun r => py_slice (py_strip r) 200)) : x.length ≤ 200 := by
  obtain ⟨r, _, rfl⟩ := List.mem_map.mp hx
  exact py_slice_length_le _ _

set_option maxRecDepth 20000 in
/-- C2 counterexample: in the fast variant two results of 101
non-whitespace characters each yield a summary of length 203, exceeding
the claimed 200-character cap. -/
theorem fast_summary_exceeds_200 :
    200 < (FastAIGenerator.make_search_request
      (fun _ => some [⟨List.replicate 101 'a'⟩, ⟨List.replicate 101 'a'⟩]) "q").summary.length ∧
    200 < (cached_research_record
      (some [⟨List.replicate 101 'a'⟩, ⟨List.replicate 101 'a'⟩])).summary.length := by
  constructor <;> decide

/-- C2 amended: for every provider response, the full variant caps the
summary at 500 characters and the details at 3 items; the fast variant
caps the details at 1 item and the summary at 401 characters (two
snippets of at most 200 characters each plus one joining space), in
both the method-based and the inline `cached_research` extraction. -/
theorem summary_and_details_caps (provider : String → Option (List String)) (query : String) :
    (AIResearchSystem.make_search_request provider query).summary.length ≤ 500 ∧
    (AIResearchSystem.make_search_request provider query).details.length ≤ 3 ∧
    (FastAIGenerator.make_search_request provider query).summary.length ≤ 401 ∧
    (FastAIGenerator.make_search_request provider query).details.length ≤ 1 ∧
    (cached_research_record (provider query)).summary.length ≤ 401 ∧
    (cached_research_record (provider query)).details.length ≤ 1 := by
  rcases hq : provider query with _ | results
  · simp [AIResearchSystem.make_search_request, FastAIGenerator.make_search_request,
      cached_research_record, hq]
  · simp only [AIResearchSystem.make_search_request, FastAIGenerator.make_search_request,
      cached_research_record, hq]
    refine ⟨py_slice_length_le _ _, ?_, ?_, ?_, ?_, ?_⟩
    · exact List.length_take_le _ _
    · refine intercalate_two_length_le _ 200 ?_ ?_
      · calc (((results.take 2).filter (fun r => r ≠ "")).map
            (fun r => py_slice (py_strip r) 200)).length
            = ((results.take 2).filter (fun r => r ≠ "")).length := List.length_map _ _
          _ ≤ (results.take 2).length := List.length_filter_le _ _
          _ ≤ 2 := List.length_take_le _ _
      · intro x hx
        exact mem_map_slice_le hx
    · calc ((results.take 1).filter (fun r => r ≠ "")).length
          ≤ (results.take 1).length := List.length_filter_le _ _
        _ ≤ 1 := List.length_take_le _ _
    · refine intercalate_two_length_le _ 200 ?_ ?_
      · calc ((results.take 2).map (fun r => py_slice (py_strip r) 200)).length
            = (results.take 2).length := List.length_map _ _
          _ ≤ 2 := List.length_take_le _ _
      · intro x hx
        exact mem_map_slice_le hx
    · exact List.length_take_le _ _

/-- C10: in the fast variant each category summary is the space-join of
at most 2 contents, each individually truncated to 200 characters, so
its length never exceeds 401 characters (in both the method-based and
the inline `cached_research` extraction). -/
theorem fast_summary_join_of_truncated (results : List String) :
    (∃ l : List String, l.length ≤ 2 ∧ (∀ x ∈ l, x.length ≤ 200) ∧
      FastAIGenerator.extract_summary results = String.intercalate " " l) ∧
    (∃ l : List String, l.length ≤ 2 ∧ (∀ x ∈ l, x.length ≤ 200) ∧
      (cached_research_record (some results)).summary = String.intercalate " " l) ∧
    (FastAIGenerator.extract_summary results).length ≤ 401 ∧
    (cached_research_record (some results)).summary.length ≤ 401 := by
  have hmethod : (((results.take 2).filter (fun r => r ≠ "")).map
      (fun r => py_slice (py_strip r) 200)).length ≤ 2 := by
    calc (((results.take 2).filter (fun r => r ≠ "")).map
        (fun r => py_slice (py_strip r) 200)).length
        = ((results.take 2).filter (fun r => r ≠ "")).length := List.length_map _ _
      _ ≤ (results.take 2).length := List.length_filter_le _ _
      _ ≤ 2 := List.length_take_le _ _
  have hinline : ((results.take 2).map (fun r => py_slice (py_strip r) 200)).length ≤ 2 := by
    calc ((results.take 2).map (fun r => py_slice (py_strip r) 200)).length
        = (results.take 2).length := List.length_map _ _
      _ ≤ 2 := List.length_take_le _ _
  refine ⟨⟨_, hmethod, fun x hx => mem_map_slice_le hx, rfl⟩,
    ⟨_, hinline, fun x hx => mem_map_slice_le hx, rfl⟩, ?_, ?_⟩
  · exact intercalate_two_length_le _ 200 hmethod (fun x hx => mem_map_slice_le hx)
  · exact intercalate_two_length_le _ 200 hinline (fun x hx => mem_map_slice_le hx)

/-- C3: the spec-modelled TTL store does run the computation exactly
once within `ttl` (first call computes, a call within `ttl` is a hit
that computes nothing, a call past `ttl` computes again), but the
key-isolation half of the claim fails on the code: both parameters of
`cached_research` are underscore-prefixed (src/app.py lines 113-114)
and hence excluded from the `st.cache_data` key, so every company
shares the one cache key, and a research lookup for a second company
within the ttl window returns the first company record unchanged
without recomputing — below, Acme receives the stored Tesla record even
though the two research records differ. -/
theorem cached_research_key_collision :
    cached_research_cache_key "Tesla" "k" = cached_research_cache_key "Acme" "k" ∧
    cached_research tesla_only_provider "Tesla" ≠
      cached_research tesla_only_provider "Acme" ∧
    (get_or_compute ([] : List (Unit × CacheEntry (List (Category × CategoryRecord))))
      (cached_research_cache_key "Tesla" "k")
      (fun _ => cached_research tesla_only_provider "Tesla") 3600 0).2.2 = true ∧
    (get_or_compute
      (get_or_compute ([] : List (Unit × CacheEntry (List (Category × CategoryRecord))))
        (cached_research_cache_key "Tesla" "k")
        (fun _ => cached_research tesla_only_provider "Tesla") 3600 0).2.1
      (cached_research_cache_key "Acme" "k")
      (fun _ => cached_research tesla_only_provider "Acme") 3600 10).1 =
      cached_research tesla_only_provider "Tesla" ∧
    (get_or_compute
      (get_or_compute ([] : List (Unit × CacheEntry (List (Category × CategoryRecord))))
        (cached_research_cache_key "Tesla" "k")
        (fun _ => cached_research tesla_only_provider "Tesla") 3600 0).2.1
      (cached_research_cache_key "Acme" "k")
      (fun _ => cached_research tesla_only_provider "Acme") 3600 10).2.2 = false ∧
    (get_or_compute
      (get_or_compute ([] : List (Unit × CacheEntry (List (Category × CategoryRecord))))
        (cached_research_cache_key "Tesla" "k")
        (fun _ => cached_research tesla_only_provider "Tesla") 3600 0).2.1
      (cached_research_cache_key "Acme" "k")
      (fun _ => cached_research tesla_only_provider "Acme") 3600 5000).2.2 = true := by
  refine ⟨rfl, ?_, rfl, rfl, rfl, rfl⟩
  decide

/-- C8: when the inference engine is unavailable (`self.llm is None`)
or the generation call raises, `generate_use_cases` returns the empty
sequence instead of raising, and the report is still assembled with an
empty `ai_use_cases` field while keeping the research data. -/
theorem generation_failure_yields_empty_report_field
    (llm : Option (String → Option String)) (inv : String → Option String)
    (research : List (Category × CategoryRecord)) (ts company date : String)
    (h : llm = none ∨ (llm = some inv ∧ inv (AIResearchSystem.build_prompt research) = none)) :
    AIResearchSystem.generate_use_cases llm research ts = [] ∧
    (AIResearchSystem.save_report company date research
      (AIResearchSystem.generate_use_cases llm research ts)).ai_use_cases = [] ∧
    (AIResearchSystem.save_report company date research
      (AIResearchSystem.generate_use_cases llm research ts)).research_data = research := by
  have hgen : AIResearchSystem.generate_use_cases llm research ts = [] := by
    rcases h with h | ⟨hl, hi⟩
    · rw [h]; rfl
    · rw [hl]
      simp [AIResearchSystem.generate_use_cases, hi]
  exact ⟨hgen, by rw [hgen]; rfl, rfl⟩

theorem generation_failure_yields_empty_report_field_witness :
    AIResearchSystem.generate_use_cases none [] "t" = [] ∧
    (AIResearchSystem.save_report "Acme" "2024-01-01" []
      (AIResearchSystem.generate_use_cases none [] "t")).ai_use_cases = [] ∧
    (AIResearchSystem.save_report "Acme" "2024-01-01" []
      (AIResearchSystem.generate_use_cases none [] "t")).research_data = [] :=
  generation_failure_yields_empty_report_field none (fun _ => none) [] "t" "Acme"
    "2024-01-01" (Or.inl rfl)

/-- C6: when the completion contains the marker exactly three times
(the split yields a preamble and three segments) and the three segments
are non-empty after stripping, the parser yields exactly 3 records with
ids 1, 2, 3 in source order, and the preamble `p` is discarded. -/
theorem parse_three_markers (raw p s1 s2 s3 ts : String)
    (hsplit : py_split raw "Use Case #" = [p, s1, s2, s3])
    (h1 : py_strip s1 ≠ "") (h2 : py_strip s2 ≠ "") (h3 : py_strip s3 ≠ "") :
    AIResearchSystem.parse_use_cases raw ts =
      [⟨1, py_strip s1, ts⟩, ⟨2, py_strip s2, ts⟩, ⟨3, py_strip s3, ts⟩] ∧
    cached_use_cases raw ts =
      [⟨1, py_strip s1, ts⟩, ⟨2, py_strip s2, ts⟩, ⟨3, py_strip s3, ts⟩] := by
  have h : AIResearchSystem.parse_use_cases raw ts =
      [⟨1, py_strip s1, ts⟩, ⟨2, py_strip s2, ts⟩, ⟨3, py_strip s3, ts⟩] := by
    unfold AIResearchSystem.parse_use_cases
    rw [hsplit]
    simp [parse_aux, h1, h2, h3]
  exact ⟨h, h⟩

theorem parse_three_markers_witness :
    AIResearchSystem.parse_use_cases "introUse Case #oneUse Case #twoUse Case #three" "t" =
      [⟨1, "one", "t"⟩, ⟨2, "two", "t"⟩, ⟨3, "three", "t"⟩] ∧
    cached_use_cases "introUse Case #oneUse Case #twoUse Case #three" "t" =
      [⟨1, "one", "t"⟩, ⟨2, "two", "t"⟩, ⟨3, "three", "t"⟩] :=
  parse_three_markers "introUse Case #oneUse Case #twoUse Case #three"
    "intro" "one" "two" "three" "t" (by decide) (by decide) (by decide) (by decide)

/-- C7: a completion containing no occurrence of the marker (its split
is the whole text as a single part) parses to the empty sequence; the
parser is a total function, so this path never raises — matching the
try/except of the source, which converts any parsing exception into an
empty (or partial) result. -/
theorem parse_no_marker (raw ts : String)
    (h : py_split raw "Use Case #" = [raw]) :
    AIResearchSystem.parse_use_cases raw ts = [] ∧ cached_use_cases raw ts = [] := by
  unfold AIResearchSystem.parse_use_cases cached_use_cases
  rw [h]
  exact ⟨rfl, rfl⟩

theorem parse_no_marker_witness :
    AIResearchSystem.parse_use_cases "hello world, no marker here" "t" = [] ∧
    cached_use_cases "hello world, no marker here" "t" = [] :=
  parse_no_marker "hello world, no marker here" "t" (by decide)

/-- C4 counterexample: on a completion whose first segment is
whitespace-only (`"Use Case # \nUse Case #x"`), the single surviving
record receives id 2, not a sequential numbering starting at 1: the
surviving segments keep their split positions as ids instead of being
renumbered 1, 2, 3, .... -/
theorem parse_ids_not_sequential :
    ¬ ((AIResearchSystem.parse_use_cases "Use Case # \nUse Case #x" "t").map UseCase.id =
      List.range' 1 (AIResearchSystem.parse_use_cases "Use Case # \nUse Case #x" "t").length) := by
  decide

/-- C4 amended: parsed ids are strictly increasing in split order (hence
no two records share an id), every record comes from a segment that is
non-empty after stripping, and each id is the 1-based split position of
its segment — ids of dropped empty segments are skipped rather than
reassigned, so the numbering starts at 1 only when the first segment
survives. -/
theorem parse_ids_distinct_and_positional (raw ts : String) (r : UseCase)
    (hr : r ∈ AIResearchSystem.parse_use_cases raw ts) :
    ((AIResearchSystem.parse_use_cases raw ts).map UseCase.id).Nodup ∧
    (AIResearchSystem.parse_use_cases raw ts).Pairwise id_lt ∧
    r.description ≠ "" ∧
    r.description = py_strip (((py_split raw "Use Case #").tail).getD (r.id - 1) "") := by
  have hpw := @parse_aux_pairwise ts ((py_split raw "Use Case #").tail) 1
  obtain ⟨ha, hb, hc, hd, he⟩ := parse_aux_mem ((py_split raw "Use Case #").tail) 1 r hr
  refine ⟨?_, hpw, hd, hc⟩
  exact (List.pairwise_map).mpr (hpw.imp fun h => Nat.ne_of_lt h)

theorem parse_ids_distinct_and_positional_witness :
    ((AIResearchSystem.parse_use_cases "Use Case #a Use Case #b" "t").map UseCase.id).Nodup ∧
    (AIResearchSystem.parse_use_cases "Use Case #a Use Case #b" "t").Pairwise id_lt ∧
    (⟨1, "a", "t"⟩ : UseCase).description ≠ "" ∧
    (⟨1, "a", "t"⟩ : UseCase).description =
      py_strip (((py_split "Use Case #a Use Case #b" "Use Case #").tail).getD
        ((⟨1, "a", "t"⟩ : UseCase).id - 1) "") :=
  parse_ids_distinct_and_positional "Use Case #a Use Case #b" "t" ⟨1, "a", "t"⟩ (by decide)

/-- C9: each parsed record has the id of the 1-based position of its
segment among all segments after the first marker, counting empty
segments; ids are strictly increasing (hence pairwise distinct), the
record text is the stripped segment at that position, and the position
of an empty (whitespace-only) segment is skipped, leaving a numeric gap;
`cached_use_cases` parses identically. -/
theorem parse_positional_ids_with_gaps (raw ts : String) (r : UseCase)
    (hr : r ∈ AIResearchSystem.parse_use_cases raw ts)
    (j : Nat) (hj : j < ((py_split raw "Use Case #").tail).length)
    (hempty : py_strip (((py_split raw "Use Case #").tail).getD j "") = "") :
    1 ≤ r.id ∧ r.id ≤ ((py_split raw "Use Case #").tail).length ∧
    r.description = py_strip (((py_split raw "Use Case #").tail).getD (r.id - 1) "") ∧
    r.generated_at = ts ∧
    (AIResearchSystem.parse_use_cases raw ts).Pairwise id_lt ∧
    r.id ≠ j + 1 ∧
    cached_use_cases raw ts = AIResearchSystem.parse_use_cases raw ts := by
  obtain ⟨ha, hb, hc, hd, he⟩ := parse_aux_mem ((py_split raw "Use Case #").tail) 1 r hr
  refine ⟨ha, by omega, hc, he, @parse_aux_pairwise ts _ 1, ?_, rfl⟩
  intro hid
  apply hd
  rw [hc, hid]
  simpa using hempty

theorem parse_positional_ids_with_gaps_witness :
    1 ≤ (⟨2, "x", "t"⟩ : UseCase).id ∧
    (⟨2, "x", "t"⟩ : UseCase).id ≤
      ((py_split "Use Case # \nUse Case #x" "Use Case #").tail).length ∧
    (⟨2, "x", "t"⟩ : UseCase).description =
      py_strip (((py_split "Use Case # \nUse Case #x" "Use Case #").tail).getD
        ((⟨2, "x", "t"⟩ : UseCase).id - 1) "") ∧
    (⟨2, "x", "t"⟩ : UseCase).generated_at = "t" ∧
    (AIResearchSystem.parse_use_cases "Use Case # \nUse Case #x" "t").Pairwise id_lt ∧
    (⟨2, "x", "t"⟩ : UseCase).id ≠ 0 + 1 ∧
    cached_use_cases "Use Case # \nUse Case #x" "t" =
      AIResearchSystem.parse_use_cases "Use Case # \nUse Case #x" "t" :=
  parse_positional_ids_with_gaps "Use Case # \nUse Case #x" "t" ⟨2, "x", "t"⟩
    (by decide) 0 (by decide) (by decide)
